import Mathlib

/-!
Verification of `src/heartbeater/singlenet/attributes.rs` from denghub/libnetkeeper.

The module builds TLV attributes for a heartbeat protocol and derives a rolling
keepalive token as the lowercase-hex MD5 of a big-endian timestamp followed by a
salt.  Bytes are modelled as `Nat` values below 256, byte strings as `List Nat`,
and machine integers as `Nat` with explicit reduction modulo `2^w`.  A Rust
panic (debug-mode arithmetic overflow) is modelled as `Option.none`.
-/

namespace Netkeeper

/-- Truncation to 32 bits, the behaviour of `u32` arithmetic. -/
def mask32 (n : Nat) : Nat := n % 4294967296

/-- Left rotation of a 32-bit word by `s` places (0 ≤ s < 32). -/
def rotl32 (x s : Nat) : Nat :=
  mask32 (Nat.shiftLeft x s) ||| Nat.shiftRight (mask32 x) (32 - s)

/-- Big-endian bytes of a `u16`, the effect of `u16::to_be` followed by
`utils::integer_to_bytes`.
Modelled from the spec: `utils::integer_to_bytes` is not under `src/`; §6 fixes
the result to the big-endian byte representation of the integer
(two bytes for a `u16`). -/
def bytes16BE (n : Nat) : List Nat :=
  [n / 256 % 256, n % 256]

/-- Big-endian bytes of a `u32`, the effect of `u32::to_be` followed by
`utils::integer_to_bytes`.
Modelled from the spec: `utils::integer_to_bytes` is not under `src/`; §4.3 and
§6 fix the result to the 4-byte big-endian representation. -/
def bytes32BE (n : Nat) : List Nat :=
  [n / 16777216 % 256, n / 65536 % 256, n / 256 % 256, n % 256]

/-! ### MD5 (RFC 1321), the digest named by the source (`Type::MD5`) -/

/-- MD5 round function F. -/
def md5F (b c d : Nat) : Nat := (b &&& c) ||| ((b ^^^ 4294967295) &&& d)

/-- MD5 round function G. -/
def md5G (b c d : Nat) : Nat := (d &&& b) ||| ((d ^^^ 4294967295) &&& c)

/-- MD5 round function H. -/
def md5H (b c d : Nat) : Nat := b ^^^ c ^^^ d

/-- MD5 round function I. -/
def md5I (b c d : Nat) : Nat := c ^^^ (b ||| (d ^^^ 4294967295))

/-- The 64 MD5 sine-derived constants. -/
def md5K : List Nat :=
  [0xd76aa478, 0xe8c7b756, 0x242070db, 0xc1bdceee,
   0xf57c0faf, 0x4787c62a, 0xa8304613, 0xfd469501,
   0x698098d8, 0x8b44f7af, 0xffff5bb1, 0x895cd7be,
   0x6b901122, 0xfd987193, 0xa679438e, 0x49b40821,
   0xf61e2562, 0xc040b340, 0x265e5a51, 0xe9b6c7aa,
   0xd62f105d, 0x02441453, 0xd8a1e681, 0xe7d3fbc8,
   0x21e1cde6, 0xc33707d6, 0xf4d50d87, 0x455a14ed,
   0xa9e3e905, 0xfcefa3f8, 0x676f02d9, 0x8d2a4c8a,
   0xfffa3942, 0x8771f681, 0x6d9d6122, 0xfde5380c,
   0xa4beea44, 0x4bdecfa9, 0xf6bb4b60, 0xbebfbc70,
   0x289b7ec6, 0xeaa127fa, 0xd4ef3085, 0x04881d05,
   0xd9d4d039, 0xe6db99e5, 0x1fa27cf8, 0xc4ac5665,
   0xf4292244, 0x432aff97, 0xab9423a7, 0xfc93a039,
   0x655b59c3, 0x8f0ccc92, 0xffeff47d, 0x85845dd1,
   0x6fa87e4f, 0xfe2ce6e0, 0xa3014314, 0x4e0811a1,
   0xf7537e82, 0xbd3af235, 0x2ad7d2bb, 0xeb86d391]

/-- The 64 MD5 per-step rotation amounts. -/
def md5S : List Nat :=
  [7, 12, 17, 22, 7, 12, 17, 22, 7, 12, 17, 22, 7, 12, 17, 22,
   5, 9, 14, 20, 5, 9, 14, 20, 5, 9, 14, 20, 5, 9, 14, 20,
   4, 11, 16, 23, 4, 11, 16, 23, 4, 11, 16, 23, 4, 11, 16, 23,
   6, 10, 15, 21, 6, 10, 15, 21, 6, 10, 15, 21, 6, 10, 15, 21]

/-- Message-word index used at step `i`. -/
def md5g (i : Nat) : Nat :=
  if i < 16 then i
  else if i < 32 then (5 * i + 1) % 16
  else if i < 48 then (3 * i + 5) % 16
  else (7 * i) % 16

/-- One of the 64 MD5 steps, acting on the state `(a, b, c, d)`. -/
def md5Step (x : List Nat) (i : Nat) (st : Nat × Nat × Nat × Nat) :
    Nat × Nat × Nat × Nat :=
  let a := st.1
  let b := st.2.1
  let c := st.2.2.1
  let d := st.2.2.2
  let f := if i < 16 then md5F b c d
           else if i < 32 then md5G b c d
           else if i < 48 then md5H b c d
           else md5I b c d
  let b' := mask32 (b + rotl32 (mask32 (a + f + md5K.getD i 0 + x.getD (md5g i) 0))
                      (md5S.getD i 0))
  (d, b', b, c)

/-- Group a byte list into little-endian 32-bit words. -/
def bytesToWordsLE : List Nat → List Nat
  | b0 :: b1 :: b2 :: b3 :: rest =>
      (b0 + 256 * b1 + 65536 * b2 + 16777216 * b3) :: bytesToWordsLE rest
  | _ => []

/-- The MD5 compression function on one 64-byte block. -/
def md5Compress (block : List Nat) (st : Nat × Nat × Nat × Nat) :
    Nat × Nat × Nat × Nat :=
  let x := bytesToWordsLE block
  let r := (List.range 64).foldl (fun s i => md5Step x i s) st
  (mask32 (st.1 + r.1), mask32 (st.2.1 + r.2.1),
   mask32 (st.2.2.1 + r.2.2.1), mask32 (st.2.2.2 + r.2.2.2))

/-- Process `n` 64-byte blocks of the (padded) message. -/
def md5Blocks : Nat → List Nat → Nat × Nat × Nat × Nat → Nat × Nat × Nat × Nat
  | 0, _, st => st
  | n + 1, msg, st => md5Blocks n (msg.drop 64) (md5Compress (msg.take 64) st)

/-- MD5 padding: a 0x80 byte, zeros to 56 mod 64, then the 8-byte
little-endian bit length. -/
def md5Pad (msg : List Nat) : List Nat :=
  let len := msg.length
  let zeros := (120 - (len + 1) % 64) % 64
  msg ++ 128 :: List.replicate zeros 0 ++
    (List.range 8).map (fun i => 8 * len / 2 ^ (8 * i) % 256)

/-- The MD5 initial state. -/
def md5Init : Nat × Nat × Nat × Nat :=
  (0x67452301, 0xefcdab89, 0x98badcfe, 0x10325476)

/-- Little-endian bytes of a 32-bit word. -/
def wordToBytesLE (w : Nat) : List Nat :=
  [w % 256, w / 256 % 256, w / 65536 % 256, w / 16777216 % 256]

/-- The 16-byte MD5 digest of a byte list. -/
def md5 (msg : List Nat) : List Nat :=
  let padded := md5Pad msg
  let st := md5Blocks (padded.length / 64) padded md5Init
  wordToBytesLE st.1 ++ wordToBytesLE st.2.1 ++
    wordToBytesLE st.2.2.1 ++ wordToBytesLE st.2.2.2

/-! ### Hex encoding and UTF-8, the behaviour of `ToHex::to_hex` and
`str::as_bytes` -/

/-- Lowercase hexadecimal digit for a value below 16. -/
def hexDigit (n : Nat) : Char :=
  if n < 10 then Char.ofNat (48 + n) else Char.ofNat (87 + n)

/-- Lowercase hexadecimal rendering of a byte list
(`rustc_serialize::hex::ToHex`). -/
def toHex (bytes : List Nat) : String :=
  String.mk (bytes.flatMap (fun b => [hexDigit (b / 16), hexDigit (b % 16)]))

/-- UTF-8 encoding of one scalar value. -/
def utf8EncodeChar (c : Char) : List Nat :=
  let n := c.toNat
  if n < 128 then [n]
  else if n < 2048 then [192 + n / 64, 128 + n % 64]
  else if n < 65536 then [224 + n / 4096, 128 + n / 64 % 64, 128 + n % 64]
  else [240 + n / 262144, 128 + n / 4096 % 64, 128 + n / 64 % 64, 128 + n % 64]

/-- The UTF-8 bytes of a string (`str::as_bytes`). -/
def strBytes (s : String) : List Nat :=
  s.data.flatMap utf8EncodeChar

/-! ### The `Attribute` model (`struct Attribute` and `impl Attribute`) -/

/-- The `Attribute` struct: a human-readable `typename`, the wire identifier
`parent_id`, the reserved `type_id`, the value-kind tag `value_type_id`, and
the raw payload `data`. -/
structure Attribute where
  typename : String
  parent_id : Nat
  type_id : Nat
  value_type_id : Nat
  data : List Nat

/-- Translation of `Attribute::new`. -/
def Attribute.new (typename : String) (parent_id type_id value_type_id : Nat)
    (data : List Nat) : Attribute :=
  ⟨typename, parent_id, type_id, value_type_id, data⟩

/-- Translation of `Attribute::data_length`: `self.data.len() as u16`; the `as u16` cast
wraps modulo 2^16. -/
def Attribute.data_length (a : Attribute) : Nat :=
  a.data.length % 65536

/-- Translation of `Attribute::length`: `self.data_length() + 3` in `u16` arithmetic.
`none` models the debug-mode overflow panic when the sum leaves `u16`. -/
def Attribute.length (a : Attribute) : Option Nat :=
  if a.data_length + 3 < 65536 then some (a.data_length + 3) else none

/-- Translation of `Attribute::as_bytes`: the identifier byte, the big-endian length bytes,
then the payload; `none` models a panic in `length`. -/
def Attribute.as_bytes (a : Attribute) : Option (List Nat) :=
  (a.length).map (fun len => a.parent_id :: bytes16BE len ++ a.data)

/-! ### The factory constructors (`impl AttributeFactory for Attribute`) -/

/-- Translation of `Attribute::username`. -/
def Attribute.username (username : String) : Attribute :=
  Attribute.new "User-Name" 0x1 0x0 0x2 (strBytes username)

/-- Translation of `Attribute::client_ip_address`; the `Ipv4Addr` argument is given by its
four octets. -/
def Attribute.client_ip_address (o1 o2 o3 o4 : Nat) : Attribute :=
  Attribute.new "Client-IP-Address" 0x2 0x0 0x1 [o1, o2, o3, o4]

/-- Translation of `Attribute::client_type`. -/
def Attribute.client_type (client_type : String) : Attribute :=
  Attribute.new "Client-Type" 0x4 0x0 0x2 (strBytes client_type)

/-- Translation of `Attribute::client_version`. -/
def Attribute.client_version (client_version : String) : Attribute :=
  Attribute.new "Client-Version" 0x3 0x0 0x2 (strBytes client_version)

/-- Translation of `Attribute::os_version`. -/
def Attribute.os_version (version : String) : Attribute :=
  Attribute.new "OS-Version" 0x5 0x0 0x2 (strBytes version)

/-- Translation of `Attribute::os_language`. -/
def Attribute.os_language (language : String) : Attribute :=
  Attribute.new "OS-Lang" 0x6 0x0 0x2 (strBytes language)

/-- Translation of `Attribute::cpu_info`. -/
def Attribute.cpu_info (cpu_info : String) : Attribute :=
  Attribute.new "CPU-Info" 0x8 0x0 0x2 (strBytes cpu_info)

/-- Translation of `Attribute::mac_address`; the `[u8; 4]` argument is given by its four
bytes. -/
def Attribute.mac_address (m1 m2 m3 m4 : Nat) : Attribute :=
  Attribute.new "MAC-Address" 0x9 0x0 0x2 [m1, m2, m3, m4]

/-- Translation of `Attribute::memory_size`. -/
def Attribute.memory_size (size : Nat) : Attribute :=
  Attribute.new "Memory-Size" 0xa 0x0 0x0 (bytes32BE size)

/-- Translation of `Attribute::default_explorer`. -/
def Attribute.default_explorer (explorer : String) : Attribute :=
  Attribute.new "Default-Explorer" 0xb 0x0 0x2 (strBytes explorer)

/-- Translation of `Attribute::keepalive_data`. -/
def Attribute.keepalive_data (data : String) : Attribute :=
  Attribute.new "KeepAlive-Data" 0x14 0x0 0x2 (strBytes data)

/-- Translation of `Attribute::keepalive_time`. -/
def Attribute.keepalive_time (timestamp : Nat) : Attribute :=
  Attribute.new "KeepAlive-Time" 0x12 0x0 0x0 (bytes32BE timestamp)

/-- Translation of `Attribute::calc_keepalive_data`.  The explicit `now` argument models the
value read from `utils::current_timestamp()` when `timestamp` is `None`
(modelled from the spec: `current_timestamp` is not under `src/`; §4.3 fixes
the default to the current Unix time, a clock read once per call). -/
def Attribute.calc_keepalive_data (timestamp : Option Nat)
    (last_data : Option String) (now : Nat) : String :=
  let timenow := match timestamp with
    | some t => t
    | none => now
  let salt := match last_data with
    | some d => d
    | none => "llwl"
  toHex (md5 (bytes32BE timenow ++ strBytes salt))

/-! ### Serialization of an attribute sequence
(`impl AttributeVec for Vec<Attribute>`) -/

/-- Translation of `Vec<Attribute>::as_bytes`: start from an empty buffer and extend it by
each attribute's bytes in order; `none` models a panic in an element's
`as_bytes`. -/
def attrVecAsBytes (attrs : List Attribute) : Option (List Nat) :=
  attrs.foldlM (fun acc a => (a.as_bytes).map (fun b => acc ++ b)) []

/-- The concatenation of the individual serializations, in order — the
sequence-serialization shape stated by the spec (§8). -/
def concatSerialized : List Attribute → Option (List Nat)
  | [] => some []
  | a :: rest =>
      match a.as_bytes with
      | none => none
      | some b =>
          match concatSerialized rest with
          | none => none
          | some bs => some (b ++ bs)

/-- The §4.3 algorithm exactly as the spec words it: default the timestamp to
the current time, default the salt to the fixed seed, hash the 4 big-endian
timestamp bytes followed by the salt, and hex-encode the digest. -/
def derive_token (timestamp : Option Nat) (previous_token : Option String)
    (now : Nat) : String :=
  let t := timestamp.getD now
  let salt : List Nat := match previous_token with
    | some p => strBytes p
    | none => strBytes "llwl"
  toHex (md5 (bytes32BE t ++ salt))

/-! ### Sample attributes used by witnesses and counterexamples -/

/-- A small sample attribute with a 2-byte payload. -/
def attrSample : Attribute := Attribute.new "Sample" 7 0 2 [5, 6]

/-- A 65536-byte payload. -/
def hugePayload : List Nat := List.replicate 65536 0

/-- An attribute whose payload has 65536 bytes, so that `data.len() as u16`
wraps to 0. -/
def attrHuge : Attribute := Attribute.new "Huge" 1 0 2 hugePayload

/-- A 65533-byte payload. -/
def pad65533 : List Nat := List.replicate 65533 0

/-- An attribute whose payload has 65533 bytes, so that `data_length() + 3`
overflows `u16`. -/
def attrPad65533 : Attribute := Attribute.new "Big" 2 0 2 pad65533

/-- An attribute with label "Label-A", reserved tag 0 and value kind 2. -/
def attrX : Attribute := Attribute.new "Label-A" 9 0 2 [1, 2, 3]

/-- An attribute agreeing with `attrX` on identifier and payload but with a
different label, reserved tag and value kind. -/
def attrY : Attribute := Attribute.new "Label-B" 9 7 5 [1, 2, 3]

/-! ### Helper lemmas -/

set_option maxRecDepth 100000

theorem data_length_eq (a : Attribute) :
    a.data_length = a.data.length % 65536 := rfl

theorem length_eq (a : Attribute) :
    a.length = if a.data_length + 3 < 65536
      then some (a.data_length + 3) else none := rfl

theorem as_bytes_eq (a : Attribute) :
    a.as_bytes = (a.length).map (fun len => a.parent_id :: bytes16BE len ++ a.data) :=
  rfl

theorem wordToBytesLE_lt (w : Nat) : ∀ b ∈ wordToBytesLE w, b < 256 := by
  intro b hb
  simp only [wordToBytesLE, List.mem_cons, List.not_mem_nil, or_false] at hb
  rcases hb with h | h | h | h <;> subst h <;> omega

theorem md5_length (msg : List Nat) : (md5 msg).length = 16 := by
  simp [md5, wordToBytesLE]

theorem md5_mem_lt (msg : List Nat) : ∀ b ∈ md5 msg, b < 256 := by
  intro b hb
  simp only [md5, List.mem_append] at hb
  rcases hb with ((h | h) | h) | h <;> exact wordToBytesLE_lt _ _ h

theorem toHex_data_length (bs : List Nat) : (toHex bs).data.length = 2 * bs.length := by
  show (bs.flatMap fun b => [hexDigit (b / 16), hexDigit (b % 16)]).length = 2 * bs.length
  induction bs with
  | nil => rfl
  | cons b t ih =>
      simp only [List.flatMap_cons, List.length_append, List.length_cons,
        List.length_nil, List.length_cons, ih]
      omega

theorem hexDigit_mem (n : Nat) (h : n < 16) :
    hexDigit n ∈ "0123456789abcdef".data := by
  interval_cases n <;> decide

theorem toHex_chars (bs : List Nat) (hb : ∀ b ∈ bs, b < 256) :
    (toHex bs).data.Forall (fun c => c ∈ "0123456789abcdef".data) := by
  rw [List.forall_iff_forall_mem]
  intro c hc
  have hc' : c ∈ bs.flatMap fun b => [hexDigit (b / 16), hexDigit (b % 16)] := hc
  rcases List.mem_flatMap.mp hc' with ⟨b, hbs, hcb⟩
  simp only [List.mem_cons, List.not_mem_nil, or_false] at hcb
  have hblt := hb b hbs
  rcases hcb with h | h <;> subst h
  · exact hexDigit_mem _ (by omega)
  · exact hexDigit_mem _ (by omega)

theorem attrVecAsBytes_go (attrs : List Attribute) (acc : List Nat) :
    attrs.foldlM (fun acc a => (a.as_bytes).map (fun b => acc ++ b)) acc =
      (concatSerialized attrs).map (fun bs => acc ++ bs) := by
  induction attrs generalizing acc with
  | nil => simp [concatSerialized]
  | cons a rest ih =>
      cases ha : a.as_bytes with
      | none => simp [List.foldlM_cons, concatSerialized, ha]
      | some b =>
          simp only [List.foldlM_cons, concatSerialized, ha, Option.map_some',
            Option.some_bind, Option.bind_eq_bind]
          rw [ih (acc ++ b)]
          cases hr : concatSerialized rest <;> simp [List.append_assoc]

/-! ### The claims -/

/-- C1: serializing an attribute (with its payload inside the protocol's
0–65532-byte bound, §3) emits exactly the identifier byte, the two big-endian
bytes of `payload.length + 3`, then the raw payload; the output length is
`payload.length + 3`, and an empty payload serializes to exactly 3 bytes. -/
theorem C1_serialize_layout (a : Attribute) (h : a.data.length ≤ 65532) :
    a.as_bytes = some (a.parent_id :: (a.data.length + 3) / 256 % 256 ::
      (a.data.length + 3) % 256 :: a.data) ∧
    (a.as_bytes).map List.length = some (a.data.length + 3) ∧
    (a.data = [] → a.as_bytes = some [a.parent_id, 0, 3]) := by
  have hm : a.data_length = a.data.length := Nat.mod_eq_of_lt (by omega)
  have hlen : a.length = some (a.data.length + 3) := by
    simp only [Attribute.length, hm]
    rw [if_pos (by omega)]
  refine ⟨?_, ?_, ?_⟩
  · simp [Attribute.as_bytes, hlen, bytes16BE]
  · simp [Attribute.as_bytes, hlen, bytes16BE]
  · intro hd
    simp [Attribute.as_bytes, hlen, bytes16BE, hd]

/-- Witness for C1 at a concrete attribute with payload `[5, 6]`. -/
theorem C1_serialize_layout_witness :
    attrSample.data.length ≤ 65532 ∧
    (attrSample.as_bytes = some (attrSample.parent_id ::
        (attrSample.data.length + 3) / 256 % 256 ::
        (attrSample.data.length + 3) % 256 :: attrSample.data) ∧
      (attrSample.as_bytes).map List.length = some (attrSample.data.length + 3) ∧
      (attrSample.data = [] → attrSample.as_bytes = some [attrSample.parent_id, 0, 3])) :=
  ⟨by decide, C1_serialize_layout attrSample (by decide)⟩

/-- C2: `calc_keepalive_data` equals the spec's `derive_token` algorithm —
MD5 over the 4 big-endian timestamp bytes (the argument, else the clock value)
followed by the salt (the previous token's UTF-8 bytes, else the fixed seed)
— and its output is a 32-character string of lowercase hexadecimal digits. -/
theorem C2_keepalive_token_spec (t : Option Nat) (p : Option String) (now : Nat) :
    Attribute.calc_keepalive_data t p now = derive_token t p now ∧
    (Attribute.calc_keepalive_data t p now).length = 32 ∧
    (Attribute.calc_keepalive_data t p now).data.Forall
      (fun c => c ∈ "0123456789abcdef".data) := by
  refine ⟨?_, ?_, ?_⟩
  · cases t <;> cases p <;> rfl
  · cases t <;> cases p <;>
      · show (toHex (md5 _)).data.length = 32
        rw [toHex_data_length, md5_length]
  · cases t <;> cases p <;> exact toHex_chars _ (md5_mem_lt _)

/-- C3 counterexample: an attribute with a 65536-byte payload (above the
65532 bound) does not fail in `length`; the `as u16` cast wraps the payload
length to 0, `length` silently returns 3, and serialization emits the wrapped
16-bit length bytes `[0, 3]`. -/
theorem C3_length_overflow_cex :
    65532 < attrHuge.data.length ∧
    attrHuge.length = some 3 ∧
    attrHuge.as_bytes = some (1 :: 0 :: 3 :: hugePayload) := by
  have hlen : attrHuge.data.length = 65536 := by
    show hugePayload.length = 65536
    unfold hugePayload
    rw [List.length_replicate]
  have hdl : attrHuge.data_length = 0 := by
    rw [data_length_eq, hlen]
  have hl : attrHuge.length = some 3 := by
    rw [length_eq, hdl]
    norm_num
  refine ⟨?_, hl, ?_⟩
  · rw [hlen]
    norm_num
  · rw [as_bytes_eq, hl]
    rfl

/-- C3 amended: `length` first wraps the payload length modulo 2^16 (the
`as u16` cast); it fails (debug overflow panic) only when the wrapped value
exceeds 65532, and otherwise silently returns the wrapped value plus 3 — so a
payload of 65533–65535 bytes makes `length` fail, but a payload of 65536 bytes
or more whose wrapped value is small wraps silently instead of failing. -/
theorem C3_length_truncation (a : Attribute) :
    a.data_length = a.data.length % 65536 ∧
    (a.data_length ≤ 65532 → a.length = some (a.data_length + 3)) ∧
    (65532 < a.data_length → a.length = none) := by
  refine ⟨rfl, ?_, ?_⟩
  · intro h
    simp only [Attribute.length]
    rw [if_pos (by omega)]
  · intro h
    simp only [Attribute.length]
    rw [if_neg (by omega)]

/-- Witness for C3 amended: the 2-byte payload succeeds, the 65533-byte
payload fails. -/
theorem C3_length_truncation_witness :
    (attrSample.data_length ≤ 65532 ∧
      attrSample.length = some (attrSample.data_length + 3)) ∧
    (65532 < attrPad65533.data_length ∧ attrPad65533.length = none) := by
  have h1 : attrSample.data_length ≤ 65532 := by decide
  have hp : attrPad65533.data.length = 65533 := by
    show pad65533.length = 65533
    unfold pad65533
    rw [List.length_replicate]
  have hdlp : attrPad65533.data_length = 65533 := by
    rw [data_length_eq, hp]
  have h2 : 65532 < attrPad65533.data_length := by
    rw [hdlp]
    norm_num
  exact ⟨⟨h1, (C3_length_truncation attrSample).2.1 h1⟩,
    ⟨h2, (C3_length_truncation attrPad65533).2.2 h2⟩⟩

/-- C4: every factory constructor fixes exactly the (identifier, value_kind)
pair of the §4.2 table and the specified payload encoding. -/
theorem C4_factory_table :
    (∀ s, (Attribute.username s).parent_id = 0x1 ∧
      (Attribute.username s).value_type_id = 0x2 ∧
      (Attribute.username s).data = strBytes s) ∧
    (∀ o1 o2 o3 o4, (Attribute.client_ip_address o1 o2 o3 o4).parent_id = 0x2 ∧
      (Attribute.client_ip_address o1 o2 o3 o4).value_type_id = 0x1 ∧
      (Attribute.client_ip_address o1 o2 o3 o4).data = [o1, o2, o3, o4]) ∧
    (∀ s, (Attribute.client_version s).parent_id = 0x3 ∧
      (Attribute.client_version s).value_type_id = 0x2 ∧
      (Attribute.client_version s).data = strBytes s) ∧
    (∀ s, (Attribute.client_type s).parent_id = 0x4 ∧
      (Attribute.client_type s).value_type_id = 0x2 ∧
      (Attribute.client_type s).data = strBytes s) ∧
    (∀ s, (Attribute.os_version s).parent_id = 0x5 ∧
      (Attribute.os_version s).value_type_id = 0x2 ∧
      (Attribute.os_version s).data = strBytes s) ∧
    (∀ s, (Attribute.os_language s).parent_id = 0x6 ∧
      (Attribute.os_language s).value_type_id = 0x2 ∧
      (Attribute.os_language s).data = strBytes s) ∧
    (∀ s, (Attribute.cpu_info s).parent_id = 0x8 ∧
      (Attribute.cpu_info s).value_type_id = 0x2 ∧
      (Attribute.cpu_info s).data = strBytes s) ∧
    (∀ m1 m2 m3 m4, (Attribute.mac_address m1 m2 m3 m4).parent_id = 0x9 ∧
      (Attribute.mac_address m1 m2 m3 m4).value_type_id = 0x2 ∧
      (Attribute.mac_address m1 m2 m3 m4).data = [m1, m2, m3, m4]) ∧
    (∀ n, (Attribute.memory_size n).parent_id = 0xa ∧
      (Attribute.memory_size n).value_type_id = 0x0 ∧
      (Attribute.memory_size n).data = bytes32BE n) ∧
    (∀ s, (Attribute.default_explorer s).parent_id = 0xb ∧
      (Attribute.default_explorer s).value_type_id = 0x2 ∧
      (Attribute.default_explorer s).data = strBytes s) ∧
    (∀ n, (Attribute.keepalive_time n).parent_id = 0x12 ∧
      (Attribute.keepalive_time n).value_type_id = 0x0 ∧
      (Attribute.keepalive_time n).data = bytes32BE n) ∧
    (∀ s, (Attribute.keepalive_data s).parent_id = 0x14 ∧
      (Attribute.keepalive_data s).value_type_id = 0x2 ∧
      (Attribute.keepalive_data s).data = strBytes s) := by
  refine ⟨?_, ?_, ?_, ?_, ?_, ?_, ?_, ?_, ?_, ?_, ?_, ?_⟩ <;>
    intros <;> exact ⟨rfl, rfl, rfl⟩

/-- C5: serializing a sequence of attributes yields exactly the concatenation
of the individual serializations, in the same order. -/
theorem C5_sequence_concat (attrs : List Attribute) :
    attrVecAsBytes attrs = concatSerialized attrs := by
  rw [attrVecAsBytes, attrVecAsBytes_go attrs []]
  cases concatSerialized attrs <;> simp

/-- C6: the keepalive-token test vectors — at timestamp 1472483020 the token
without a previous token is `ffb0b2af94693fd1ba4c93e6b9aebd3f`, and with that
token as the previous token it is `d0dce2b013c8adfac646a2917fdab802`,
whatever the ambient clock reads. -/
theorem C6_keepalive_vectors :
    (∀ now, Attribute.calc_keepalive_data (some 1472483020) none now =
      "ffb0b2af94693fd1ba4c93e6b9aebd3f") ∧
    (∀ now, Attribute.calc_keepalive_data (some 1472483020)
      (some "ffb0b2af94693fd1ba4c93e6b9aebd3f") now =
      "d0dce2b013c8adfac646a2917fdab802") := by
  constructor
  · intro now
    show toHex (md5 (bytes32BE 1472483020 ++ strBytes "llwl")) =
      "ffb0b2af94693fd1ba4c93e6b9aebd3f"
    decide
  · intro now
    show toHex (md5 (bytes32BE 1472483020 ++
        strBytes "ffb0b2af94693fd1ba4c93e6b9aebd3f")) =
      "d0dce2b013c8adfac646a2917fdab802"
    decide

/-- C7: the User-Name constructor at `05802278989@HYXY.XY` serializes to the
recorded 22 bytes, and the Memory-Size constructor at 1024 has payload
`[0, 0, 4, 0]` and total serialized length 7. -/
theorem C7_concrete_vectors :
    (Attribute.username "05802278989@HYXY.XY").as_bytes =
      some [1, 0, 22, 48, 53, 56, 48, 50, 50, 55, 56, 57, 56, 57, 64, 72, 89,
            88, 89, 46, 88, 89] ∧
    (Attribute.memory_size 1024).data = [0, 0, 4, 0] ∧
    ((Attribute.memory_size 1024).as_bytes).map List.length = some 7 := by
  decide

/-- C8 counterexample: with the timestamp omitted, `calc_keepalive_data`
reads the clock, so two calls with identical argument pairs made at different
clock readings return different strings. -/
theorem C8_determinism_cex :
    ¬ ∀ (t : Option Nat) (p : Option String) (n1 n2 : Nat),
        Attribute.calc_keepalive_data t p n1 =
          Attribute.calc_keepalive_data t p n2 := by
  intro h
  exact absurd (h none none 0 1) (by decide)

/-- C8 amended: `calc_keepalive_data` is deterministic whenever the timestamp
argument is supplied — the output then does not depend on the ambient clock —
while an omitted timestamp makes the output a function of the clock reading. -/
theorem C8_determinism_amended (t : Nat) (p : Option String) (n1 n2 : Nat) :
    Attribute.calc_keepalive_data (some t) p n1 =
      Attribute.calc_keepalive_data (some t) p n2 := rfl

/-- C9: the serialized bytes depend only on the identifier and the payload —
two attributes agreeing on `parent_id` and `data` serialize identically, so
`typename`, `type_id` and `value_type_id` are never written to the wire. -/
theorem C9_wire_independence (a b : Attribute) (h1 : a.parent_id = b.parent_id)
    (h2 : a.data = b.data) : a.as_bytes = b.as_bytes := by
  simp [Attribute.as_bytes, Attribute.length, Attribute.data_length, h1, h2]

/-- Witness for C9: two attributes differing in label, reserved tag and value
kind but agreeing on identifier and payload serialize identically. -/
theorem C9_wire_independence_witness :
    attrX.typename ≠ attrY.typename ∧ attrX.type_id ≠ attrY.type_id ∧
    attrX.value_type_id ≠ attrY.value_type_id ∧
    attrX.parent_id = attrY.parent_id ∧ attrX.data = attrY.data ∧
    attrX.as_bytes = attrY.as_bytes :=
  ⟨by decide, by decide, by decide, rfl, rfl,
    C9_wire_independence attrX attrY rfl rfl⟩

/-- C10: a supplied-but-empty previous token makes the salt the empty byte
sequence — only the 4 timestamp bytes are hashed — and does not fall back to
the fixed seed, so the result differs from the omitted-token case. -/
theorem C10_empty_previous_token :
    (∀ t now, Attribute.calc_keepalive_data (some t) (some "") now =
      toHex (md5 (bytes32BE t))) ∧
    (∀ now, Attribute.calc_keepalive_data none (some "") now =
      toHex (md5 (bytes32BE now))) ∧
    Attribute.calc_keepalive_data (some 1472483020) (some "") 0 ≠
      Attribute.calc_keepalive_data (some 1472483020) none 0 := by
  refine ⟨?_, ?_, by decide⟩
  · intro t now
    show toHex (md5 (bytes32BE t ++ strBytes "")) = _
    simp [strBytes]
  · intro now
    show toHex (md5 (bytes32BE now ++ strBytes "")) = _
    simp [strBytes]

end Netkeeper
